import Mathlib

/-!
Shallow embedding of src/create_unified_poi_table.py.

The script is a single-transaction batch pipeline over a PostgreSQL store:
validation of source tables (CTE pipeline writing excluded_tables_log),
drop and recreate of unified_pois and processed_tables_log, selection of
tables to process, a UNION ALL projection with nearest-neighbor enrichment,
ledger inserts, and a spatial index.  SQL values are embedded as explicit
Lean data; SQL NULL comparisons use Kleene three-valued logic; geometric
distance is modeled by the squared Euclidean distance on integer points
(order-isomorphic to the true distance, so minima and argmin structure are
preserved); ORDER BY dist LIMIT 1 is embedded both as the set of rows
minimal under the ordering key (any of which the store may return) and as
one canonical executable choice.
-/

/-- A SQL value inside a source row, as seen by to_jsonb and CONCAT. -/
inductive Value where
  | vnull : Value
  | vstr : String → Value
  | vnum : Int → Value
deriving DecidableEq, Repr

/-- CONCAT stringification: NULL contributes the empty string. -/
def valueText : Value → String
  | Value.vnull => ""
  | Value.vstr s => s
  | Value.vnum n => toString n

/-- Content of a geometry column before parsing: SQL NULL, a well formed
EWKT point, or text that ST_GeomFromEWKT rejects. -/
inductive GeomInput where
  | gnull : GeomInput
  | gpoint (x y : Int) : GeomInput
  | gbad (txt : String) : GeomInput
deriving DecidableEq, Repr

/-- ST_SetSRID(ST_GeomFromEWKT(g), 4326), line 205: NULL maps to NULL,
a valid point parses, invalid text raises an error that aborts the
statement (and hence the transaction). -/
def stGeomFromEWKT : GeomInput → Except String (Option (Int × Int))
  | GeomInput.gnull => Except.ok none
  | GeomInput.gpoint x y => Except.ok (some (x, y))
  | GeomInput.gbad t => Except.error ("invalid EWKT geometry: " ++ t)

/-- One entry of information_schema.columns for a source table. -/
structure ColumnInfo where
  column_name : String
  data_type : String
  numeric_precision : Option Nat
  numeric_scale : Option Nat
  is_nullable : String
deriving DecidableEq, Repr

/-- One table constraint together with its key_column_usage columns. -/
structure TableConstraint where
  ctype : String
  key_cols : List String
deriving DecidableEq, Repr

/-- One data row of a source table: the column-name-to-value mapping that
to_jsonb(t) sees, plus the geometry column kept apart. -/
structure SourceRow where
  fields : List (String × Value)
  geometry : GeomInput
deriving DecidableEq, Repr

/-- One table of schema berlin_source_data: its introspectable metadata
and its data rows. -/
structure SourceTable where
  table_name : String
  columns : List ColumnInfo
  constraints : List TableConstraint
  rows : List SourceRow
deriving DecidableEq, Repr

/-- A row of excluded_tables_log (the exclusion_date default timestamp
column carries no information used by the program and is omitted). -/
structure ExclusionRecord where
  table_name : String
  reason : String
deriving DecidableEq, Repr

/-- Lowercasing used for ILIKE and LOWER, written as a structural map
over the character list so that concrete instances evaluate. -/
def strLower (s : String) : String :=
  ⟨s.data.map Char.toLower⟩

/-- Character-list matching used to embed ILIKE with a pattern of the
shape percent-text-percent. -/
def leadMatch : List Char → List Char → Bool
  | [], _ => true
  | _ :: _, [] => false
  | a :: as, b :: bs => a == b && leadMatch as bs

/-- True when needle occurs as a contiguous block inside hay. -/
def hasSub (needle : List Char) : List Char → Bool
  | [] => leadMatch needle []
  | c :: rest => leadMatch needle (c :: rest) || hasSub needle rest

/-- name ILIKE the pattern percent-pat-percent, with pat lowercase. -/
def ilikeContains (name pat : String) : Bool :=
  hasSub pat.data (strLower name).data

/-- Name filter of the all_tables CTE (lines 41 and 42) and of
valid_tables_sql (lines 180 and 181). -/
def notNameExcluded (n : String) : Bool :=
  !(ilikeContains n "districts") && !(ilikeContains n "neighborhoods")

/-- One row of the expected_schema VALUES list (lines 45 to 56). -/
structure ExpectedCol where
  column_name : String
  expected_type : String
  expected_length : Option String
  constraint_type : Option String
  is_nullable : String
deriving DecidableEq, Repr

/-- The expected_schema CTE: note that expected_length is NULL in every
row, exactly as in the source. -/
def expected_schema : List ExpectedCol :=
  [⟨"id", "character varying", none, some "PRIMARY KEY", "NO"⟩,
   ⟨"district_id", "character varying", none, some "FOREIGN KEY", "NO"⟩,
   ⟨"name", "character varying", none, none, "YES"⟩,
   ⟨"latitude", "numeric", none, none, "YES"⟩,
   ⟨"longitude", "numeric", none, none, "YES"⟩,
   ⟨"neighborhood", "character varying", none, none, "YES"⟩,
   ⟨"district", "character varying", none, none, "YES"⟩,
   ⟨"neighborhood_id", "character varying", none, none, "YES"⟩]

/-- The req_cols VALUES list of the missing_columns CTE (lines 62 to 66). -/
def requiredCols : List String :=
  ["id", "name", "district_id", "district", "latitude", "longitude",
   "neighborhood_id", "neighborhood", "geometry"]

/-- Code-point lexicographic comparison of character lists, phrased over
Nat so that every concrete instance evaluates in the kernel. -/
def charsLE : List Char → List Char → Bool
  | [], _ => true
  | _ :: _, [] => false
  | a :: as, b :: bs =>
    if a.toNat < b.toNat then true
    else if b.toNat < a.toNat then false
    else charsLE as bs

/-- The text ordering used by ORDER BY col in STRING_AGG: code-point
lexicographic order on strings. -/
def strLEP (a b : String) : Prop :=
  charsLE a.data b.data = true

instance (a b : String) : Decidable (strLEP a b) := by
  unfold strLEP; infer_instance

theorem charsLE_total (x y : List Char) : charsLE x y = true ∨ charsLE y x = true := by
  induction x generalizing y with
  | nil => left; rfl
  | cons a as ih =>
    cases y with
    | nil => right; rfl
    | cons b bs =>
      rcases Nat.lt_trichotomy a.toNat b.toNat with h | h | h
      · left; simp [charsLE, h]
      · rcases ih bs with h2 | h2
        · left; simp [charsLE, h, h2]
        · right; simp [charsLE, h, h2]
      · right; simp [charsLE, h, Nat.lt_asymm h]

theorem charsLE_trans {x y z : List Char} (hxy : charsLE x y = true)
    (hyz : charsLE y z = true) : charsLE x z = true := by
  induction x generalizing y z with
  | nil => rfl
  | cons a as ih =>
    cases y with
    | nil => simp [charsLE] at hxy
    | cons b bs =>
      cases z with
      | nil => simp [charsLE] at hyz
      | cons c cs =>
        by_cases hab : a.toNat < b.toNat
        · by_cases hbc : b.toNat < c.toNat
          · simp [charsLE, Nat.lt_trans hab hbc]
          · by_cases hcb : c.toNat < b.toNat
            · simp [charsLE, hbc, hcb] at hyz
            · have hbceq : b.toNat = c.toNat := Nat.le_antisymm (Nat.le_of_not_lt hcb) (Nat.le_of_not_lt hbc)
              simp [charsLE, hbceq ▸ hab]
        · by_cases hba : b.toNat < a.toNat
          · simp [charsLE, hab, hba] at hxy
          · have habeq : a.toNat = b.toNat := Nat.le_antisymm (Nat.le_of_not_lt hba) (Nat.le_of_not_lt hab)
            by_cases hbc : b.toNat < c.toNat
            · simp [charsLE, habeq ▸ hbc]
            · by_cases hcb : c.toNat < b.toNat
              · simp [charsLE, hbc, hcb] at hyz
              · simp only [charsLE, hab, hba, if_false] at hxy
                simp only [charsLE, hbc, hcb, if_false] at hyz
                have hac : ¬ a.toNat < c.toNat := habeq ▸ hbc
                have hca : ¬ c.toNat < a.toNat := habeq ▸ hcb
                simp [charsLE, hac, hca, ih hxy hyz]

instance : IsTotal String strLEP :=
  ⟨fun a b => charsLE_total a.data b.data⟩

instance : IsTrans String strLEP :=
  ⟨fun _ _ _ => charsLE_trans⟩

/-- Required columns of t with no case-insensitive match among the
declared columns: the rows the LEFT JOIN of missing_columns leaves NULL. -/
def specMissing (t : SourceTable) : List String :=
  requiredCols.filter (fun col => !(t.columns.any (fun c => (strLower c.column_name) == col)))

/-- The missing_columns CTE, per table: tables passing the all_tables
name filter, HAVING COUNT greater than zero, reason built by
STRING_AGG(DISTINCT col ORDER BY col) with separator comma-space. -/
def missingRecordFor (t : SourceTable) : Option ExclusionRecord :=
  if notNameExcluded t.table_name && !(specMissing t).isEmpty then
    some ⟨t.table_name,
      "Missing columns: " ++
        String.intercalate ", " (List.insertionSort strLEP (specMissing t).dedup)⟩
  else none

/-- The missing_columns CTE over the whole schema. -/
def missing_columns (src : List SourceTable) : List ExclusionRecord :=
  src.filterMap missingRecordFor

/-- SQL string concatenation numeric_precision comma numeric_scale:
NULL if either operand is NULL. -/
def sqlPrecScale (c : ColumnInfo) : Option String :=
  match c.numeric_precision, c.numeric_scale with
  | some p, some s => some (toString p ++ "," ++ toString s)
  | _, _ => none

/-- Kleene OR of SQL three-valued logic. -/
def or3 : Option Bool → Option Bool → Option Bool
  | some true, _ => some true
  | _, some true => some true
  | some false, some false => some false
  | _, _ => none

/-- Kleene AND of SQL three-valued logic. -/
def and3 : Option Bool → Option Bool → Option Bool
  | some false, _ => some false
  | _, some false => some false
  | some true, some true => some true
  | _, _ => none

/-- SQL inequality of nullable strings. -/
def neq3 : Option String → Option String → Option Bool
  | some a, some b => some (a != b)
  | _, _ => none

/-- The WHERE condition of datatype_issues (lines 84 to 87). -/
def dtypeCond (c : ColumnInfo) (e : ExpectedCol) : Option Bool :=
  or3 (some (c.data_type != e.expected_type))
      (and3 (some (c.data_type == "numeric")) (neq3 (sqlPrecScale c) e.expected_length))

/-- The datatype_issues CTE: it scans information_schema.columns of the
whole schema, with no join against all_tables, so name-excluded tables
are scanned too. -/
def datatype_issues (src : List SourceTable) : List ExclusionRecord :=
  src.flatMap (fun t => t.columns.flatMap (fun c =>
    expected_schema.filterMap (fun e =>
      if (strLower c.column_name) == e.column_name && dtypeCond c e == some true then
        some ⟨t.table_name, "Expected data type " ++ e.expected_type ++ ", got " ++ c.data_type⟩
      else none)))

/-- The null_issues CTE: also scans the whole schema with no all_tables
join. -/
def null_issues (src : List SourceTable) : List ExclusionRecord :=
  src.flatMap (fun t => t.columns.flatMap (fun c =>
    expected_schema.filterMap (fun e =>
      if (strLower c.column_name) == e.column_name && e.is_nullable == "NO" &&
          c.is_nullable == "YES" then
        some ⟨t.table_name, "Column " ++ c.column_name ++ " allows NULL, expected NOT NULL"⟩
      else none)))

/-- The pk_issues CTE: a PRIMARY KEY constraint whose key_column_usage
contains the id column, case-insensitively. -/
def pk_issues (src : List SourceTable) : List ExclusionRecord :=
  src.filterMap (fun t =>
    if notNameExcluded t.table_name &&
        !(t.constraints.any (fun tc =>
          tc.ctype == "PRIMARY KEY" && tc.key_cols.any (fun k => (strLower k) == "id"))) then
      some ⟨t.table_name, "Missing PRIMARY KEY on id column"⟩
    else none)

/-- The fk_issues CTE: the NOT EXISTS subquery (lines 122 to 128) tests
only for some constraint of type FOREIGN KEY on the table; it never joins
key_column_usage, so the guarded column is not inspected. -/
def fk_issues (src : List SourceTable) : List ExclusionRecord :=
  src.filterMap (fun t =>
    if notNameExcluded t.table_name &&
        !(t.constraints.any (fun tc => tc.ctype == "FOREIGN KEY")) then
      some ⟨t.table_name, "Missing or incorrect foreign key on district_id"⟩
    else none)

/-- The invalid_tables CTE, inserted into excluded_tables_log. -/
def invalid_tables (src : List SourceTable) : List ExclusionRecord :=
  missing_columns src ++ datatype_issues src ++ null_issues src ++
    pk_issues src ++ fk_issues src

/-- The hardcoded allow-list of valid_tables_sql (line 183). -/
def allow_list : List String :=
  ["galleries", "food_markets", "long_term_listings", "banks", "malls"]

/-- valid_tables_sql (lines 176 to 185): name filter, not in the
exclusion log just written, and in the allow-list.  The ledger
processed_tables_log is not consulted. -/
def valid_tables (src : List SourceTable) (excluded : List ExclusionRecord) : List String :=
  (src.map (·.table_name)).filter (fun n =>
    notNameExcluded n && !((excluded.map (·.table_name)).contains n) && allow_list.contains n)

/-- poi_id generation (line 196):
CONCAT(SUBSTRING(table FROM 1 FOR 4), dash, t.id). -/
def mkPoiId (table id : String) : String :=
  table.take 4 ++ "-" ++ id

/-- Keys subtracted from to_jsonb(t) in the attributes projection
(line 206).  Note that district and neighborhood are not subtracted. -/
def removedKeys : List String :=
  ["id", "name", "district_id", "neighborhood_id", "latitude", "longitude", "geometry"]

/-- Column access t.col of the SELECT projection. -/
def getVal (r : SourceRow) (col : String) : Value :=
  (((r.fields.find? (fun kv => kv.1 == col)).map (·.2)).getD Value.vnull)

/-- One nearest_pois entry: jsonb_build_object of lines 237 to 245. -/
structure NEntry where
  id : String
  name : Value
  distance : Option Int
  street : Value
  housenumber : Value
deriving DecidableEq, Repr

/-- One canonical record of unified_pois. -/
structure URow where
  poi_id : String
  name : Value
  layer : String
  district_id : Value
  district : Value
  neighborhood_id : Value
  neighborhood : Value
  latitude : Value
  longitude : Value
  geometry : Option (Int × Int)
  attributes : List (String × Value)
  nearest_pois : Option (List (String × NEntry))
deriving DecidableEq, Repr

/-- Projection of one source row into a canonical record (lines 194 to
208); nearest_pois is filled in later by the enrichment step.  Geometry
distance and ordering both use the squared Euclidean distance model. -/
def rowToURow (tbl : String) (r : SourceRow) : Except String URow :=
  match stGeomFromEWKT r.geometry with
  | Except.error e => Except.error e
  | Except.ok g => Except.ok
      { poi_id := mkPoiId tbl (valueText (getVal r "id"))
        name := getVal r "name"
        layer := tbl
        district_id := getVal r "district_id"
        district := getVal r "district"
        neighborhood_id := getVal r "neighborhood_id"
        neighborhood := getVal r "neighborhood"
        latitude := getVal r "latitude"
        longitude := getVal r "longitude"
        geometry := g
        attributes := r.fields.filter (fun kv => !(removedKeys.contains kv.1))
        nearest_pois := none }

/-- Projection of all rows of one table, in row order; the first
unparseable geometry aborts the statement. -/
def projectRows (tbl : String) : List SourceRow → Except String (List URow)
  | [] => Except.ok []
  | r :: rs =>
    match rowToURow tbl r with
    | Except.error e => Except.error e
    | Except.ok u =>
      match projectRows tbl rs with
      | Except.error e => Except.error e
      | Except.ok us => Except.ok (u :: us)

/-- The all_pois CTE: the UNION ALL of the per-table SELECTs, in the
order of the processed-table list. -/
def all_pois (src : List SourceTable) : List String → Except String (List URow)
  | [] => Except.ok []
  | n :: ns =>
    match src.find? (fun t => t.table_name == n) with
    | none =>
      all_pois src ns
    | some t =>
      match projectRows t.table_name t.rows with
      | Except.error e => Except.error e
      | Except.ok us =>
        match all_pois src ns with
        | Except.error e => Except.error e
        | Except.ok vs => Except.ok (us ++ vs)

/-- ST_Distance over nullable geometries, modeled by the squared
Euclidean distance: NULL when either geometry is NULL. -/
def stDistance : Option (Int × Int) → Option (Int × Int) → Option Int
  | some p, some q => some ((p.1 - q.1) * (p.1 - q.1) + (p.2 - q.2) * (p.2 - q.2))
  | _, _ => none

/-- Strict comparison of ordering keys under ORDER BY ASC with the
default NULLS LAST placement: a non-null key sorts strictly before a
null one, null keys tie with each other. -/
def keyLT : Option Int → Option Int → Bool
  | some x, some y => x < y
  | some _, none => true
  | none, _ => false

/-- The rows the subquery ORDER BY ap.geometry dist p.geometry LIMIT 1
may return: members no other member strictly precedes.  PostgreSQL
guarantees nothing more when several keys tie. -/
def isMinimal (qg : Option (Int × Int)) (members : List URow) (r : URow) : Prop :=
  r ∈ members ∧ ∀ m ∈ members, keyLT (stDistance qg m.geometry) (stDistance qg r.geometry) = false

instance (qg : Option (Int × Int)) (members : List URow) (r : URow) :
    Decidable (isMinimal qg members r) := by
  unfold isMinimal; infer_instance

/-- One admissible execution of ORDER BY LIMIT 1: the first member in
row order that no later member strictly beats. -/
def selectNearest (qg : Option (Int × Int)) (members : List URow) : Option URow :=
  members.foldl
    (fun acc m =>
      match acc with
      | none => some m
      | some b => if keyLT (stDistance qg m.geometry) (stDistance qg b.geometry) then some m else some b)
    none

/-- The unique_layers CTE (line 216). -/
def unique_layers (pois : List URow) : List String :=
  ((pois.map (·.layer)).filter (fun l => l != "long_term_listings")).dedup

/-- Rows of a given layer among all_pois (the WHERE of line 247). -/
def layerMembers (pois : List URow) (l : String) : List URow :=
  pois.filter (fun p => p.layer == l)

/-- The jsonb_build_object of lines 237 to 245, from the chosen row. -/
def mkEntry (qg : Option (Int × Int)) (r : URow) : NEntry :=
  { id := r.poi_id
    name := r.name
    distance := stDistance qg r.geometry
    street := getVal ⟨r.attributes, GeomInput.gnull⟩ "street"
    housenumber := getVal ⟨r.attributes, GeomInput.gnull⟩ "housenumber" }

/-- The nearest_pois scalar subquery (lines 231 to 254) under an
arbitrary per-layer choice among the admissible LIMIT 1 results;
jsonb_object_agg over zero rows is SQL NULL. -/
def nearestPoisWith (ch : String → Option URow) (pois : List URow) (ap : URow) :
    Option (List (String × NEntry)) :=
  if ap.layer == "long_term_listings" then
    let es := (unique_layers pois).filterMap
      (fun l => (ch l).map (fun r => (l, mkEntry ap.geometry r)))
    if es.isEmpty then none else some es
  else none

/-- A choice function is valid when, for every candidate layer, it picks
some row among the admissible LIMIT 1 results for that layer. -/
def ValidChoice (pois : List URow) (qg : Option (Int × Int)) (ch : String → Option URow) : Prop :=
  ∀ l ∈ unique_layers pois, ∃ r, ch l = some r ∧ isMinimal qg (layerMembers pois l) r

/-- The canonical executable nearest_pois computation, using the
first-minimal choice for every layer. -/
def mkNearestPois (pois : List URow) (ap : URow) : Option (List (String × NEntry)) :=
  nearestPoisWith (fun l => selectNearest ap.geometry (layerMembers pois l)) pois ap

/-- The pois_with_nearest CTE: every all_pois row, with nearest_pois
filled in from the full in-flight set. -/
def pois_with_nearest (pois : List URow) : List URow :=
  pois.map (fun ap => { ap with nearest_pois := mkNearestPois pois ap })

/-- INSERT into unified_pois row by row; a duplicate of the poi_id
primary key raises and aborts the statement. -/
def insertAll (existing : List URow) : List URow → Except String (List URow)
  | [] => Except.ok existing
  | r :: rs =>
    if existing.any (fun e => e.poi_id == r.poi_id) then
      Except.error "duplicate key value violates unique constraint unified_pois_pkey"
    else insertAll (existing ++ [r]) rs

/-- INSERT INTO processed_tables_log ... ON CONFLICT DO NOTHING, one
statement per processed table (lines 268 to 272). -/
def ledgerAppend (led : List String) (names : List String) : List String :=
  names.foldl (fun l n => if l.contains n then l else l ++ [n]) led

/-- The persistent store state: the source schema (read-only input) and
the three public artifact tables, plus the spatial index flag. -/
structure DB where
  source : List SourceTable
  excluded_tables_log : List ExclusionRecord
  unified_pois : List URow
  processed_tables_log : List String
  hasSpatialIndex : Bool
deriving DecidableEq, Repr

/-- The tables a run selects for processing, as a function of the store:
valid_tables_sql runs right after the validation statement rebuilt
excluded_tables_log from the current source. -/
def runNewTables (db : DB) : List String :=
  valid_tables db.source (invalid_tables db.source)

/-- Net effect of the statements of one run, in statement order:
validation rebuilds excluded_tables_log; the drops reset unified_pois
and processed_tables_log; valid_tables_sql picks the tables; the
guarded block builds insert_sql only when new_tables is nonempty, yet
line 266 executes insert_sql unconditionally, so an empty selection
raises NameError; the insert projects, enriches and inserts; the ledger
statements append; the index statement finishes the run. -/
def pipelineCore (src : List SourceTable) :
    Except String (List ExclusionRecord × List URow × List String) :=
  if (valid_tables src (invalid_tables src)).isEmpty then
    Except.error "NameError: name insert_sql is not defined"
  else
    match all_pois src (valid_tables src (invalid_tables src)) with
    | Except.error e => Except.error e
    | Except.ok pois =>
      match insertAll [] (pois_with_nearest pois) with
      | Except.error e => Except.error e
      | Except.ok unified =>
        Except.ok (invalid_tables src, unified,
          ledgerAppend [] (valid_tables src (invalid_tables src)))

/-- One run of the script body inside the transaction. -/
def runPipeline (db : DB) : Except String DB :=
  match pipelineCore db.source with
  | Except.error e => Except.error e
  | Except.ok (excl, unified, led) =>
    Except.ok
      { source := db.source
        excluded_tables_log := excl
        unified_pois := unified
        processed_tables_log := led
        hasSpatialIndex := true }

/-- engine.begin (line 25): the whole run is one transaction; on any
error every statement is rolled back and the store is unchanged. -/
def runOnce (db : DB) : DB :=
  match runPipeline db with
  | Except.error _ => db
  | Except.ok db1 => db1

/-- Column metadata of a source table conforming to the expected schema. -/
def goodCols : List ColumnInfo :=
  [⟨"id", "character varying", none, none, "NO"⟩,
   ⟨"district_id", "character varying", none, none, "NO"⟩,
   ⟨"name", "character varying", none, none, "YES"⟩,
   ⟨"latitude", "numeric", some 9, some 6, "YES"⟩,
   ⟨"longitude", "numeric", some 9, some 6, "YES"⟩,
   ⟨"neighborhood", "character varying", none, none, "YES"⟩,
   ⟨"district", "character varying", none, none, "YES"⟩,
   ⟨"neighborhood_id", "character varying", none, none, "YES"⟩,
   ⟨"geometry", "USER-DEFINED", none, none, "YES"⟩]

/-- Constraints of a conforming source table. -/
def goodConstraints : List TableConstraint :=
  [⟨"PRIMARY KEY", ["id"]⟩, ⟨"FOREIGN KEY", ["district_id"]⟩]

/-- One conforming data row with the given id and coordinates. -/
def goodRow (rid : String) (x y : Int) : SourceRow :=
  { fields :=
      [("id", Value.vstr rid), ("name", Value.vstr "A"),
       ("district_id", Value.vstr "d1"), ("district", Value.vstr "Mitte"),
       ("neighborhood_id", Value.vstr "n1"), ("neighborhood", Value.vstr "NH"),
       ("latitude", Value.vnum x), ("longitude", Value.vnum y)]
    geometry := GeomInput.gpoint x y }

/-- A schema-conforming source table with one data row. -/
def goodTable (n rid : String) (x y : Int) : SourceTable :=
  { table_name := n, columns := goodCols, constraints := goodConstraints,
    rows := [goodRow rid x y] }



theorem strOfData {a b : String} (h : a.data = b.data) : a = b :=
  congrArg String.mk h

/-- C7: for every candidate dataset missing one or more required columns
(matched case-insensitively against the required column set), validation
produces a single aggregated Exclusion Record whose reason lists exactly
the missing column names, sorted, comma-joined. -/
theorem c7_missing_columns_reason (t : SourceTable)
    (hname : notNameExcluded t.table_name = true)
    (hmiss : specMissing t ≠ []) :
    ∃ l : List String,
      missingRecordFor t =
        some ⟨t.table_name, "Missing columns: " ++ String.intercalate ", " l⟩ ∧
      List.Pairwise strLEP l ∧
      (∀ c, c ∈ l ↔ (c ∈ requiredCols ∧ ∀ col ∈ t.columns, strLower col.column_name ≠ c)) := by
  refine ⟨List.insertionSort strLEP (specMissing t).dedup, ?_, ?_, ?_⟩
  · have hne : (specMissing t).isEmpty = false := by
      cases h2 : specMissing t with
      | nil => exact absurd h2 hmiss
      | cons a as => rfl
    unfold missingRecordFor
    simp [hname, hne]
  · exact List.sorted_insertionSort strLEP _
  · intro c
    rw [(List.perm_insertionSort strLEP _).mem_iff, List.mem_dedup]
    unfold specMissing
    rw [List.mem_filter]
    simp only [Bool.not_eq_true', List.any_eq_false, beq_iff_eq]

/-- A conforming table that only lacks the geometry column. -/
def c7wTable : SourceTable :=
  { table_name := "banks"
    columns :=
      [⟨"id", "character varying", none, none, "NO"⟩,
       ⟨"district_id", "character varying", none, none, "NO"⟩,
       ⟨"name", "character varying", none, none, "YES"⟩,
       ⟨"latitude", "numeric", some 9, some 6, "YES"⟩,
       ⟨"longitude", "numeric", some 9, some 6, "YES"⟩,
       ⟨"neighborhood", "character varying", none, none, "YES"⟩,
       ⟨"district", "character varying", none, none, "YES"⟩,
       ⟨"neighborhood_id", "character varying", none, none, "YES"⟩]
    constraints := [⟨"PRIMARY KEY", ["id"]⟩, ⟨"FOREIGN KEY", ["district_id"]⟩]
    rows := [] }

/-- C7 witness: c7_missing_columns_reason applied at a concrete table. -/
theorem c7_missing_columns_reason_witness :
    notNameExcluded "banks" = true ∧ specMissing c7wTable ≠ [] ∧
    (∃ l : List String,
      missingRecordFor c7wTable =
        some ⟨"banks", "Missing columns: " ++ String.intercalate ", " l⟩ ∧
      List.Pairwise strLEP l ∧
      (∀ c, c ∈ l ↔ (c ∈ requiredCols ∧ ∀ col ∈ c7wTable.columns, strLower col.column_name ≠ c))) :=
  ⟨by decide, by decide, c7_missing_columns_reason c7wTable (by decide) (by decide)⟩

/-- An administrative boundary table whose name matches the excluded
pattern list, carrying every required column but with name typed text. -/
def districtsTable : SourceTable :=
  { table_name := "districts"
    columns :=
      [⟨"id", "character varying", none, none, "NO"⟩,
       ⟨"district_id", "character varying", none, none, "NO"⟩,
       ⟨"name", "text", none, none, "YES"⟩,
       ⟨"latitude", "numeric", some 9, some 6, "YES"⟩,
       ⟨"longitude", "numeric", some 9, some 6, "YES"⟩,
       ⟨"neighborhood", "character varying", none, none, "YES"⟩,
       ⟨"district", "character varying", none, none, "YES"⟩,
       ⟨"neighborhood_id", "character varying", none, none, "YES"⟩,
       ⟨"geometry", "USER-DEFINED", none, none, "YES"⟩]
    constraints := [⟨"PRIMARY KEY", ["id"]⟩, ⟨"FOREIGN KEY", ["district_id"]⟩]
    rows := [] }

/-- C5: the claim says a name-excluded dataset receives no validation
check of any kind and never receives an Exclusion Record.  The code
disagrees: datatype_issues and null_issues scan information_schema
columns of the whole schema without the all_tables name filter, so the
districts table above, although name-excluded, receives a datatype
Exclusion Record. -/
theorem c5_name_excluded_table_still_checked :
    notNameExcluded "districts" = false ∧
    (⟨"districts", "Expected data type character varying, got text"⟩ : ExclusionRecord) ∈
      invalid_tables [districtsTable] := by decide

/-- Does the table declare a referential constraint on the given
column?  This definition follows the words of the claim, for comparison
with the fk_issues check actually implemented. -/
def hasFKOn (t : SourceTable) (col : String) : Bool :=
  t.constraints.any (fun tc => tc.ctype == "FOREIGN KEY" && tc.key_cols.contains col)

/-- A conforming table whose only foreign key is on neighborhood_id:
district_id has no referential constraint. -/
def c6Table : SourceTable :=
  { table_name := "malls"
    columns :=
      [⟨"id", "character varying", none, none, "NO"⟩,
       ⟨"district_id", "character varying", none, none, "NO"⟩,
       ⟨"name", "character varying", none, none, "YES"⟩,
       ⟨"latitude", "numeric", some 9, some 6, "YES"⟩,
       ⟨"longitude", "numeric", some 9, some 6, "YES"⟩,
       ⟨"neighborhood", "character varying", none, none, "YES"⟩,
       ⟨"district", "character varying", none, none, "YES"⟩,
       ⟨"neighborhood_id", "character varying", none, none, "YES"⟩,
       ⟨"geometry", "USER-DEFINED", none, none, "YES"⟩]
    constraints := [⟨"PRIMARY KEY", ["id"]⟩, ⟨"FOREIGN KEY", ["neighborhood_id"]⟩]
    rows := [] }

/-- C6: the claim (and the reason text the code itself prints) ties the
foreign-key check to district_id, but the NOT EXISTS subquery only asks
for some FOREIGN KEY constraint on the table: a table whose only
foreign key is on neighborhood_id produces no Exclusion Record at all,
although district_id lacks a referential constraint. -/
theorem c6_fk_check_ignores_column :
    hasFKOn c6Table "district_id" = false ∧
    fk_issues [c6Table] = [] ∧
    invalid_tables [c6Table] = [] := by decide

/-- A conforming banks table whose latitude column is declared
numeric(10,2) where the spec expects numeric(9,6), with one data row. -/
def banksPrecTable : SourceTable :=
  { table_name := "banks"
    columns :=
      [⟨"id", "character varying", none, none, "NO"⟩,
       ⟨"district_id", "character varying", none, none, "NO"⟩,
       ⟨"name", "character varying", none, none, "YES"⟩,
       ⟨"latitude", "numeric", some 10, some 2, "YES"⟩,
       ⟨"longitude", "numeric", some 9, some 6, "YES"⟩,
       ⟨"neighborhood", "character varying", none, none, "YES"⟩,
       ⟨"district", "character varying", none, none, "YES"⟩,
       ⟨"neighborhood_id", "character varying", none, none, "YES"⟩,
       ⟨"geometry", "USER-DEFINED", none, none, "YES"⟩]
    constraints := [⟨"PRIMARY KEY", ["id"]⟩, ⟨"FOREIGN KEY", ["district_id"]⟩]
    rows := [goodRow "1" 0 0] }

/-- C3: the claim says a numeric column declared (10,2) where (9,6) is
expected yields exactly one datatype-mismatch Exclusion Record and zero
canonical records.  In the code every expected_length of expected_schema
is NULL, so the precision comparison is SQL-unknown and the datatype
check never fires on precision: the table passes validation and one
canonical record is inserted. -/
theorem c3_precision_mismatch_not_reported :
    datatype_issues [banksPrecTable] = [] ∧
    invalid_tables [banksPrecTable] = [] ∧
    (runOnce ⟨[banksPrecTable], [], [], [], false⟩).unified_pois.length = 1 := by decide

/-- A fully conforming banks table as first-run input. -/
def banksGoodT : SourceTable := goodTable "banks" "1" 0 0

/-- A fully conforming malls table. -/
def mallsGoodT : SourceTable := goodTable "malls" "1" 1 1

/-- The banks table after losing its foreign key, failing validation. -/
def banksNoFK : SourceTable :=
  { banksGoodT with constraints := [⟨"PRIMARY KEY", ["id"]⟩] }

/-- Store state after a first run over the conforming banks table. -/
def c1db1 : DB := runOnce ⟨[banksGoodT], [], [], [], false⟩

/-- Store state after a second run in which banks stopped validating
and malls appeared. -/
def c1db2 : DB := runOnce { c1db1 with source := [banksNoFK, mallsGoodT] }

/-- C1 counterexample: after the first run banks is in the ledger, yet
a second run would select it again (the ledger is never consulted by
valid_tables_sql), and a later run whose validation rejects banks
deletes both its ledger entry and its canonical record, because every
run drops and recreates unified_pois and processed_tables_log. -/
theorem c1_ledger_not_consulted_and_not_append_only :
    c1db1.processed_tables_log = ["banks"] ∧
    (c1db1.unified_pois.map (fun u => u.poi_id)) = ["bank-1"] ∧
    runNewTables c1db1 = ["banks"] ∧
    c1db2.processed_tables_log = ["malls"] ∧
    (c1db2.unified_pois.map (fun u => u.poi_id)) = ["mall-1"] := by decide

theorem pipelineCore_ok_shape {src : List SourceTable} {excl : List ExclusionRecord}
    {unified : List URow} {led : List String}
    (h : pipelineCore src = Except.ok (excl, unified, led)) :
    excl = invalid_tables src ∧
    led = ledgerAppend [] (valid_tables src (invalid_tables src)) := by
  unfold pipelineCore at h
  split at h
  · cases h
  · split at h
    · cases h
    · split at h
      · cases h
      · injection h with h2
        simp only [Prod.mk.injEq] at h2
        exact ⟨h2.1.symm, h2.2.2.symm⟩

theorem runOnce_error_shape {db : DB} {e : String}
    (h : pipelineCore db.source = Except.error e) : runOnce db = db := by
  unfold runOnce runPipeline
  rw [h]

theorem runOnce_ok_shape {db : DB} {excl : List ExclusionRecord}
    {unified : List URow} {led : List String}
    (h : pipelineCore db.source = Except.ok (excl, unified, led)) :
    runOnce db = ⟨db.source, excl, unified, led, true⟩ := by
  unfold runOnce runPipeline
  rw [h]

/-- C1 amended: runs are idempotent as whole-state transformations, but
not through the ledger: each run rebuilds every artifact from the
current source alone (the source is the only field a run reads), so a
second identical run recomputes rather than skips. -/
theorem c1_runs_rebuild_from_scratch (db : DB) :
    (runOnce db).source = db.source ∧
    runOnce (runOnce db) = runOnce db ∧
    runNewTables (runOnce db) = runNewTables db := by
  cases h : pipelineCore db.source with
  | error e =>
    have h1 : runOnce db = db := runOnce_error_shape h
    rw [h1]
    exact ⟨rfl, h1, rfl⟩
  | ok out =>
    obtain ⟨excl, unified, led⟩ := out
    have h1 : runOnce db = ⟨db.source, excl, unified, led, true⟩ := runOnce_ok_shape h
    have hsrc : (runOnce db).source = db.source := by rw [h1]
    refine ⟨hsrc, ?_, ?_⟩
    · have h2 : pipelineCore (runOnce db).source = Except.ok (excl, unified, led) := by
        rw [hsrc, h]
      have h3 : runOnce (runOnce db) = ⟨(runOnce db).source, excl, unified, led, true⟩ :=
        runOnce_ok_shape h2
      rw [h3, h1]
    · unfold runNewTables
      rw [hsrc]

/-- C9: the whole run body executes inside one engine.begin transaction,
so a run either applies the recomputed exclusion log, canonical rows,
ledger and index flag together, or, when any statement fails, leaves
the store exactly as it was. -/
theorem c9_run_is_atomic (db : DB) :
    (∃ e, runPipeline db = Except.error e ∧ runOnce db = db) ∨
    (∃ db1, runPipeline db = Except.ok db1 ∧ runOnce db = db1 ∧
      db1.source = db.source ∧
      db1.excluded_tables_log = invalid_tables db.source ∧
      db1.processed_tables_log = ledgerAppend [] (runNewTables db) ∧
      db1.hasSpatialIndex = true) := by
  cases h : pipelineCore db.source with
  | error e =>
    refine Or.inl ⟨e, ?_, runOnce_error_shape h⟩
    unfold runPipeline
    rw [h]
  | ok out =>
    obtain ⟨excl, unified, led⟩ := out
    obtain ⟨he, hl⟩ := pipelineCore_ok_shape h
    refine Or.inr ⟨⟨db.source, excl, unified, led, true⟩, ?_, runOnce_ok_shape h, rfl, he, hl, rfl⟩
    unfold runPipeline
    rw [h]

/-- A bank at (1, 0). -/
def c2mA : URow :=
  { poi_id := "bank-a", name := Value.vstr "A", layer := "banks"
    district_id := Value.vnull, district := Value.vnull
    neighborhood_id := Value.vnull, neighborhood := Value.vnull
    latitude := Value.vnum 1, longitude := Value.vnum 0
    geometry := some (1, 0), attributes := [], nearest_pois := none }

/-- A bank at (-1, 0), equidistant from the origin with c2mA. -/
def c2mB : URow :=
  { poi_id := "bank-b", name := Value.vstr "B", layer := "banks"
    district_id := Value.vnull, district := Value.vnull
    neighborhood_id := Value.vnull, neighborhood := Value.vnull
    latitude := Value.vnum (-1), longitude := Value.vnum 0
    geometry := some (-1, 0), attributes := [], nearest_pois := none }

/-- C2 counterexample: for a query geometry at the origin the two banks
are equidistant and both are admissible results of ORDER BY distance
LIMIT 1, with different poi_ids: the code imposes no deterministic tie
rule, the store may return either. -/
theorem c2_tie_not_deterministic :
    stDistance (some (0, 0)) c2mA.geometry = stDistance (some (0, 0)) c2mB.geometry ∧
    isMinimal (some (0, 0)) [c2mA, c2mB] c2mA ∧
    isMinimal (some (0, 0)) [c2mA, c2mB] c2mB ∧
    c2mA.poi_id ≠ c2mB.poi_id := by decide

/-- C2 amended: for a query record with non-null geometry and a
candidate layer having at least one member with non-null geometry,
every admissible result r of the nearest-neighbor subquery belongs to
the layer, its reported entry carries id r.poi_id and a non-null
distance d, d is attained by some member, and no member with non-null
geometry lies closer; which equidistant member is returned is left
unspecified by the code. -/
theorem c2_nearest_attains_minimum (qp : Int × Int) (pois : List URow) (l : String) (r : URow)
    (hmem : ∃ m ∈ layerMembers pois l, (m.geometry).isSome = true)
    (hmin : isMinimal (some qp) (layerMembers pois l) r) :
    ∃ d : Int,
      (mkEntry (some qp) r).id = r.poi_id ∧
      (mkEntry (some qp) r).distance = some d ∧
      r ∈ layerMembers pois l ∧
      stDistance (some qp) r.geometry = some d ∧
      (∃ m ∈ layerMembers pois l, stDistance (some qp) m.geometry = some d) ∧
      (∀ m ∈ layerMembers pois l, ∀ d2 : Int,
        stDistance (some qp) m.geometry = some d2 → d ≤ d2) := by
  obtain ⟨m0, hm0, hg0⟩ := hmem
  obtain ⟨g0, hg0eq⟩ := Option.isSome_iff_exists.mp hg0
  have hk0 : stDistance (some qp) m0.geometry = some ((qp.1 - g0.1) * (qp.1 - g0.1) + (qp.2 - g0.2) * (qp.2 - g0.2)) := by
    rw [hg0eq]; rfl
  have hrsome : ∃ gr, r.geometry = some gr := by
    cases hgr : r.geometry with
    | some gr => exact ⟨gr, rfl⟩
    | none =>
      have hfalse := hmin.2 m0 hm0
      rw [hk0, hgr] at hfalse
      simp [stDistance, keyLT] at hfalse
  obtain ⟨gr, hgr⟩ := hrsome
  refine ⟨(qp.1 - gr.1) * (qp.1 - gr.1) + (qp.2 - gr.2) * (qp.2 - gr.2), rfl, ?_, hmin.1, ?_, ?_, ?_⟩
  · show stDistance (some qp) r.geometry = _
    rw [hgr]; rfl
  · rw [hgr]; rfl
  · exact ⟨r, hmin.1, by rw [hgr]; rfl⟩
  · intro m hm d2 hd2
    have hfalse := hmin.2 m hm
    rw [hd2, hgr] at hfalse
    simp only [stDistance, keyLT] at hfalse
    simpa using Int.not_lt.mp (by simpa using hfalse)

/-- C2 witness: c2_nearest_attains_minimum applied at a concrete layer. -/
theorem c2_nearest_attains_minimum_witness :
    (∃ m ∈ layerMembers [c2mA, c2mB] "banks", (m.geometry).isSome = true) ∧
    isMinimal (some (0, 0)) (layerMembers [c2mA, c2mB] "banks") c2mA ∧
    (∃ d : Int,
      (mkEntry (some (0, 0)) c2mA).id = c2mA.poi_id ∧
      (mkEntry (some (0, 0)) c2mA).distance = some d ∧
      c2mA ∈ layerMembers [c2mA, c2mB] "banks" ∧
      stDistance (some (0, 0)) c2mA.geometry = some d ∧
      (∃ m ∈ layerMembers [c2mA, c2mB] "banks", stDistance (some (0, 0)) m.geometry = some d) ∧
      (∀ m ∈ layerMembers [c2mA, c2mB] "banks", ∀ d2 : Int,
        stDistance (some (0, 0)) m.geometry = some d2 → d ≤ d2)) :=
  ⟨by decide, by decide,
    c2_nearest_attains_minimum (0, 0) [c2mA, c2mB] "banks" c2mA (by decide) (by decide)⟩

theorem stDistance_none_left (x : Option (Int × Int)) : stDistance none x = none := by
  cases x <;> rfl

/-- C8 amended: a row with null geometry is still projected into a
canonical record (with null geometry); it is never the admissible
nearest candidate when the query geometry is non-null and some member
of the same layer has non-null geometry (null ordering keys sort last);
but a query-category record with null geometry still receives a
nearest_pois object with one entry per candidate layer, every entry
carrying a null distance, rather than no enrichment.  A row with
unparseable geometry instead aborts the inserting statement. -/
theorem c8_null_geometry_behavior :
    (∀ (tbl : String) (r : SourceRow), r.geometry = GeomInput.gnull →
      ∃ u, rowToURow tbl r = Except.ok u ∧ u.geometry = none) ∧
    (∀ (qp : Int × Int) (members : List URow) (r m : URow),
      m ∈ members → (m.geometry).isSome = true → r.geometry = none →
      ¬ isMinimal (some qp) members r) ∧
    (∀ (pois : List URow) (ap : URow) (ch : String → Option URow),
      ap.layer = "long_term_listings" → ap.geometry = none →
      unique_layers pois ≠ [] → ValidChoice pois ap.geometry ch →
      ∃ es, nearestPoisWith ch pois ap = some es ∧ es ≠ [] ∧
        ∀ e ∈ es, (e.2).distance = (none : Option Int)) := by
  refine ⟨?_, ?_, ?_⟩
  · intro tbl r hg
    refine ⟨{ poi_id := mkPoiId tbl (valueText (getVal r "id"))
              name := getVal r "name"
              layer := tbl
              district_id := getVal r "district_id"
              district := getVal r "district"
              neighborhood_id := getVal r "neighborhood_id"
              neighborhood := getVal r "neighborhood"
              latitude := getVal r "latitude"
              longitude := getVal r "longitude"
              geometry := none
              attributes := r.fields.filter (fun kv => !(removedKeys.contains kv.1))
              nearest_pois := none }, ?_, rfl⟩
    unfold rowToURow
    rw [hg]
    rfl
  · intro qp members r m hm hg hr hcontra
    have hfalse := hcontra.2 m hm
    obtain ⟨gm, hgm⟩ := Option.isSome_iff_exists.mp hg
    rw [hr, hgm] at hfalse
    simp [stDistance, keyLT] at hfalse
  · intro pois ap ch hlayer hgeom hne hvc
    cases hu : unique_layers pois with
    | nil => exact absurd hu hne
    | cons l0 ls =>
      obtain ⟨r0, hch0, _hmin0⟩ := hvc l0 (by rw [hu]; exact List.mem_cons_self l0 ls)
      have hes : ((unique_layers pois).filterMap
          (fun l => (ch l).map (fun r => (l, mkEntry ap.geometry r)))) =
          (l0, mkEntry ap.geometry r0) ::
            (ls.filterMap (fun l => (ch l).map (fun r => (l, mkEntry ap.geometry r)))) := by
        rw [hu, List.filterMap_cons, hch0]
        rfl
      refine ⟨(unique_layers pois).filterMap
          (fun l => (ch l).map (fun r => (l, mkEntry ap.geometry r))), ?_, ?_, ?_⟩
      · unfold nearestPoisWith
        simp only [hlayer, beq_self_eq_true, if_true]
        rw [hes]
        rfl
      · rw [hes]
        simp
      · intro e he
        obtain ⟨l1, _hl1, hmap⟩ := List.mem_filterMap.mp he
        obtain ⟨r1, _hch1, hout⟩ := Option.map_eq_some'.mp hmap
        rw [← hout]
        show stDistance ap.geometry r1.geometry = none
        rw [hgeom]
        exact stDistance_none_left r1.geometry

/-- A gallery record at the origin. -/
def c8gal : URow :=
  { poi_id := "gall-1", name := Value.vstr "G", layer := "galleries"
    district_id := Value.vnull, district := Value.vnull
    neighborhood_id := Value.vnull, neighborhood := Value.vnull
    latitude := Value.vnum 0, longitude := Value.vnum 0
    geometry := some (0, 0), attributes := [], nearest_pois := none }

/-- A query-category listing whose geometry is null. -/
def c8listing : URow :=
  { poi_id := "long-1", name := Value.vstr "L", layer := "long_term_listings"
    district_id := Value.vnull, district := Value.vnull
    neighborhood_id := Value.vnull, neighborhood := Value.vnull
    latitude := Value.vnull, longitude := Value.vnull
    geometry := none, attributes := [], nearest_pois := none }

/-- The in-flight unified set for the C8 scenario. -/
def c8pois : List URow := [c8listing, c8gal]

/-- A source row with a null geometry column. -/
def c8row : SourceRow := { fields := [("id", Value.vstr "9")], geometry := GeomInput.gnull }

/-- C8 witness: c8_null_geometry_behavior applied at concrete inputs. -/
theorem c8_null_geometry_behavior_witness :
    (∃ u, rowToURow "galleries" c8row = Except.ok u ∧ u.geometry = none) ∧
    (¬ isMinimal (some (5, 5)) c8pois c8listing) ∧
    (∃ es, nearestPoisWith (fun _ => some c8gal) c8pois c8listing = some es ∧ es ≠ [] ∧
      ∀ e ∈ es, (e.2).distance = (none : Option Int)) :=
  ⟨c8_null_geometry_behavior.1 "galleries" c8row rfl,
   c8_null_geometry_behavior.2.1 (5, 5) c8pois c8listing c8gal (by decide) (by decide) rfl,
   c8_null_geometry_behavior.2.2 c8pois c8listing (fun _ => some c8gal) rfl rfl (by decide)
     (by
       intro l hl
       have hl2 : l = "galleries" := by
         have : unique_layers c8pois = ["galleries"] := by decide
         rw [this] at hl
         simpa using hl
       subst hl2
       exact ⟨c8gal, rfl, by decide⟩)⟩

/-- C8 counterexample: the claim says a query-category record with null
geometry receives no nearest-neighbor enrichment; in the code the
jsonb_object_agg subquery still runs, all ordering keys are null, and
the listing receives a nearest_pois object whose entry has a null
distance and an arbitrarily selected candidate id. -/
theorem c8_null_listing_still_enriched :
    c8listing.geometry = none ∧
    mkNearestPois c8pois c8listing = some [("galleries", mkEntry none c8gal)] := by decide

/-- The promoted canonical field names the claim says are excluded from
the attributes bag, following the words of the claim, for comparison
with removedKeys actually subtracted by the code. -/
def claimExcludedKeys : List String :=
  ["id", "name", "layer", "district_id", "district", "neighborhood_id",
   "neighborhood", "latitude", "longitude", "geometry"]

/-- A conforming source row carrying a district and a neighborhood. -/
def c4row : SourceRow := goodRow "7" 1 2

/-- The canonical record the code produces from c4row. -/
def c4urow : URow :=
  { poi_id := "mall-7", name := Value.vstr "A", layer := "malls"
    district_id := Value.vstr "d1", district := Value.vstr "Mitte"
    neighborhood_id := Value.vstr "n1", neighborhood := Value.vstr "NH"
    latitude := Value.vnum 1, longitude := Value.vnum 2
    geometry := some (1, 2)
    attributes := [("district", Value.vstr "Mitte"), ("neighborhood", Value.vstr "NH")]
    nearest_pois := none }

/-- C4 counterexample: the claim excludes district (and neighborhood)
from the attributes bag, but the code only subtracts seven keys from
to_jsonb(t), so the promoted district and neighborhood columns also
stay inside attributes. -/
theorem c4_district_still_in_attributes :
    "district" ∈ claimExcludedKeys ∧
    "district" ∉ removedKeys ∧
    rowToURow "malls" c4row = Except.ok c4urow ∧
    ("district", Value.vstr "Mitte") ∈ c4urow.attributes ∧
    ("neighborhood", Value.vstr "NH") ∈ c4urow.attributes :=
  ⟨by decide, by decide, rfl, by decide, by decide⟩

/-- C4 amended: the attributes bag contains exactly the source columns
whose names are not among id, name, district_id, neighborhood_id,
latitude, longitude, geometry, each under its original name with its
original value; district and neighborhood appear both promoted and in
the bag. -/
theorem c4_attributes_exact (tbl : String) (r : SourceRow) (u : URow)
    (h : rowToURow tbl r = Except.ok u) :
    ∀ (k : String) (v : Value), (k, v) ∈ u.attributes ↔
      ((k, v) ∈ r.fields ∧
        k ∉ (["id", "name", "district_id", "neighborhood_id", "latitude", "longitude",
          "geometry"] : List String)) := by
  have hattr : u.attributes = r.fields.filter (fun kv => !(removedKeys.contains kv.1)) := by
    unfold rowToURow at h
    cases hg : stGeomFromEWKT r.geometry with
    | error e => rw [hg] at h; cases h
    | ok g => rw [hg] at h; injection h with h2; rw [← h2]
  intro k v
  rw [hattr, List.mem_filter]
  simp [removedKeys, List.elem_iff]

/-- C4 witness: c4_attributes_exact applied at a concrete row. -/
theorem c4_attributes_exact_witness :
    rowToURow "malls" c4row = Except.ok c4urow ∧
    (∀ (k : String) (v : Value), (k, v) ∈ c4urow.attributes ↔
      ((k, v) ∈ c4row.fields ∧
        k ∉ (["id", "name", "district_id", "neighborhood_id", "latitude", "longitude",
          "geometry"] : List String))) :=
  ⟨rfl, c4_attributes_exact "malls" c4row c4urow rfl⟩

theorem string_append_inj {a b x y : String} (hlen : a.data.length = b.data.length)
    (h : a ++ x = b ++ y) : a = b ∧ x = y := by
  have hd : a.data ++ x.data = b.data ++ y.data := by
    have h2 := congrArg String.data h
    simpa [String.data_append] using h2
  obtain ⟨h1, h2⟩ := List.append_inj hd hlen
  exact ⟨strOfData h1, strOfData h2⟩

theorem allow_list_take4 :
    ∀ t1 ∈ allow_list, ∀ t2 ∈ allow_list, t1 ≠ t2 →
      (t1.take 4 ++ "-") ≠ (t2.take 4 ++ "-") ∧
      (t1.take 4 ++ "-").data.length = 5 ∧ (t2.take 4 ++ "-").data.length = 5 := by decide

theorem mkPoiId_cross_ne {t1 t2 : String} (h1 : t1 ∈ allow_list) (h2 : t2 ∈ allow_list)
    (hne : t1 ≠ t2) (i1 i2 : String) : mkPoiId t1 i1 ≠ mkPoiId t2 i2 := by
  intro heq
  obtain ⟨hp, hl1, hl2⟩ := allow_list_take4 t1 h1 t2 h2 hne
  have heq2 : (t1.take 4 ++ "-") ++ i1 = (t2.take 4 ++ "-") ++ i2 := heq
  exact hp (string_append_inj (by rw [hl1, hl2]) heq2).1

theorem mkPoiId_right_inj (t : String) : Function.Injective (mkPoiId t) := by
  intro i1 i2 h
  have hd := congrArg String.data h
  simp only [mkPoiId, String.data_append, List.append_assoc] at hd
  exact strOfData (List.append_cancel_left (List.append_cancel_left hd))

/-- The poi_ids one processed table contributes to the UNION ALL. -/
def tablePoiIds (src : List SourceTable) (n : String) : List String :=
  match src.find? (fun t => t.table_name == n) with
  | none => []
  | some t => t.rows.map (fun r => mkPoiId t.table_name (valueText (getVal r "id")))

theorem rowToURow_ok_poi_id {tbl : String} {r : SourceRow} {u : URow}
    (h : rowToURow tbl r = Except.ok u) :
    u.poi_id = mkPoiId tbl (valueText (getVal r "id")) := by
  unfold rowToURow at h
  cases hg : stGeomFromEWKT r.geometry with
  | error e => rw [hg] at h; cases h
  | ok g => rw [hg] at h; injection h with h2; rw [← h2]

theorem projectRows_ok_poiIds {tbl : String} {rs : List SourceRow} {us : List URow}
    (h : projectRows tbl rs = Except.ok us) :
    us.map (fun u => u.poi_id) = rs.map (fun r => mkPoiId tbl (valueText (getVal r "id"))) := by
  induction rs generalizing us with
  | nil =>
    unfold projectRows at h
    injection h with h2
    rw [← h2]
    rfl
  | cons r rs ih =>
    unfold projectRows at h
    cases hu : rowToURow tbl r with
    | error e => rw [hu] at h; cases h
    | ok u =>
      rw [hu] at h
      cases hrest : projectRows tbl rs with
      | error e => rw [hrest] at h; cases h
      | ok us2 =>
        rw [hrest] at h
        injection h with h2
        rw [← h2]
        simp only [List.map_cons]
        rw [rowToURow_ok_poi_id hu, ih hrest]

theorem all_pois_ok_poiIds {src : List SourceTable} {names : List String} {pois : List URow}
    (h : all_pois src names = Except.ok pois) :
    pois.map (fun u => u.poi_id) = names.flatMap (tablePoiIds src) := by
  induction names generalizing pois with
  | nil =>
    unfold all_pois at h
    injection h with h2
    rw [← h2]
    rfl
  | cons n ns ih =>
    unfold all_pois at h
    cases hf : src.find? (fun t => t.table_name == n) with
    | none =>
      rw [hf] at h
      rw [List.flatMap_cons]
      have ht : tablePoiIds src n = [] := by unfold tablePoiIds; rw [hf]
      rw [ht, List.nil_append]
      exact ih h
    | some t =>
      rw [hf] at h
      dsimp only at h
      cases hp : projectRows t.table_name t.rows with
      | error e => rw [hp] at h; cases h
      | ok us =>
        rw [hp] at h
        cases hrest : all_pois src ns with
        | error e => rw [hrest] at h; cases h
        | ok vs =>
          rw [hrest] at h
          injection h with h2
          rw [← h2]
          rw [List.map_append, List.flatMap_cons]
          have ht : tablePoiIds src n =
              t.rows.map (fun r => mkPoiId t.table_name (valueText (getVal r "id"))) := by
            unfold tablePoiIds
            rw [hf]
          rw [ht, projectRows_ok_poiIds hp, ih hrest]

theorem tablePoiIds_nodup {src : List SourceTable} (n : String)
    (hids : ∀ t ∈ src, ((t.rows).map (fun r => valueText (getVal r "id"))).Nodup) :
    (tablePoiIds src n).Nodup := by
  cases hf : src.find? (fun t => t.table_name == n) with
  | none =>
    have he : tablePoiIds src n = [] := by unfold tablePoiIds; rw [hf]
    rw [he]
    exact List.nodup_nil
  | some t =>
    have he : tablePoiIds src n =
        t.rows.map (fun r => mkPoiId t.table_name (valueText (getVal r "id"))) := by
      unfold tablePoiIds
      rw [hf]
    have ht : t ∈ src := List.mem_of_find?_eq_some hf
    have h1 := hids t ht
    have h2 : t.rows.map (fun r => mkPoiId t.table_name (valueText (getVal r "id"))) =
        ((t.rows).map (fun r => valueText (getVal r "id"))).map (mkPoiId t.table_name) := by
      rw [List.map_map]
      rfl
    rw [he, h2]
    exact List.Nodup.map (mkPoiId_right_inj t.table_name) h1

theorem tablePoiIds_mem {src : List SourceTable} {n x : String}
    (h : x ∈ tablePoiIds src n) : ∃ i, x = mkPoiId n i := by
  unfold tablePoiIds at h
  cases hf : src.find? (fun t => t.table_name == n) with
  | none => rw [hf] at h; cases h
  | some t =>
    rw [hf] at h
    obtain ⟨r, _hr, hx⟩ := List.mem_map.mp h
    have hn : t.table_name = n := by
      have h3 := List.find?_some hf
      simpa using h3
    exact ⟨valueText (getVal r "id"), by rw [← hx, hn]⟩

theorem poiIds_flat_nodup {src : List SourceTable} {names : List String}
    (hnd : names.Nodup) (hal : ∀ n ∈ names, n ∈ allow_list)
    (hids : ∀ t ∈ src, ((t.rows).map (fun r => valueText (getVal r "id"))).Nodup) :
    (names.flatMap (tablePoiIds src)).Nodup := by
  induction names with
  | nil => exact List.nodup_nil
  | cons n ns ih =>
    rw [List.flatMap_cons, List.nodup_append]
    refine ⟨tablePoiIds_nodup n hids,
      ih hnd.of_cons (fun m hm => hal m (List.mem_cons_of_mem n hm)), ?_⟩
    intro x hx hx2
    obtain ⟨m, hm, hxm⟩ := List.mem_flatMap.mp hx2
    obtain ⟨i1, hi1⟩ := tablePoiIds_mem hx
    obtain ⟨i2, hi2⟩ := tablePoiIds_mem hxm
    have hnm : n ≠ m := by
      intro hcon
      exact (List.nodup_cons.mp hnd).1 (hcon ▸ hm)
    exact mkPoiId_cross_ne (hal n (List.mem_cons_self n ns))
      (hal m (List.mem_cons_of_mem n hm)) hnm i1 i2 (hi1.symm.trans hi2)

theorem insertAll_ok {rows existing : List URow}
    (h : ((existing ++ rows).map (fun u => u.poi_id)).Nodup) :
    insertAll existing rows = Except.ok (existing ++ rows) := by
  induction rows generalizing existing with
  | nil =>
    unfold insertAll
    rw [List.append_nil]
  | cons r rs ih =>
    have hnotin : r.poi_id ∉ existing.map (fun u => u.poi_id) := by
      rw [List.map_append] at h
      have hdisj := (List.nodup_append.mp h).2.2
      intro hcon
      exact hdisj hcon (by simp)
    have hany : (existing.any (fun e => e.poi_id == r.poi_id)) = false := by
      rw [List.any_eq_false]
      intro e he
      intro hbeq
      exact hnotin ((beq_iff_eq.mp hbeq) ▸ List.mem_map_of_mem (fun u => u.poi_id) he)
    have hassoc : existing ++ r :: rs = (existing ++ [r]) ++ rs := by simp
    unfold insertAll
    rw [hany]
    rw [hassoc] at h ⊢
    exact ih h

theorem pois_with_nearest_poiIds (pois : List URow) :
    (pois_with_nearest pois).map (fun u => u.poi_id) = pois.map (fun u => u.poi_id) := by
  unfold pois_with_nearest
  rw [List.map_map]
  rfl

/-- C10: the four-character prefixes of the allow-listed dataset names
are pairwise distinct, so poi_ids from different datasets never
collide; and whenever every processed table has pairwise distinct id
values, the poi_ids of the whole run are pairwise distinct and the
INSERT into the poi_id primary key succeeds: its duplicate-key branch
is unreachable within a run. -/
theorem c10_poi_ids_collision_free :
    List.Pairwise (fun a b => a.take 4 ≠ b.take 4) allow_list ∧
    (∀ t1 ∈ allow_list, ∀ t2 ∈ allow_list, t1 ≠ t2 →
      ∀ i1 i2 : String, mkPoiId t1 i1 ≠ mkPoiId t2 i2) ∧
    (∀ (src : List SourceTable) (names : List String) (pois : List URow),
      names.Nodup → (∀ n ∈ names, n ∈ allow_list) →
      (∀ t ∈ src, ((t.rows).map (fun r => valueText (getVal r "id"))).Nodup) →
      all_pois src names = Except.ok pois →
      insertAll [] (pois_with_nearest pois) = Except.ok (pois_with_nearest pois)) := by
  refine ⟨by decide, ?_, ?_⟩
  · intro t1 h1 t2 h2 hne i1 i2
    exact mkPoiId_cross_ne h1 h2 hne i1 i2
  · intro src names pois hnd hal hids hall
    have hnodup : ((pois_with_nearest pois).map (fun u => u.poi_id)).Nodup := by
      rw [pois_with_nearest_poiIds, all_pois_ok_poiIds hall]
      exact poiIds_flat_nodup hnd hal hids
    have h2 := @insertAll_ok (pois_with_nearest pois) []
      (by simpa using hnodup)
    simpa using h2

/-- A two-table source schema for the C10 witness. -/
def c10src : List SourceTable := [goodTable "banks" "1" 0 0, goodTable "malls" "1" 1 1]

/-- The projected union rows of the C10 witness source. -/
def c10pois : List URow :=
  [{ poi_id := "bank-1", name := Value.vstr "A", layer := "banks"
     district_id := Value.vstr "d1", district := Value.vstr "Mitte"
     neighborhood_id := Value.vstr "n1", neighborhood := Value.vstr "NH"
     latitude := Value.vnum 0, longitude := Value.vnum 0
     geometry := some (0, 0)
     attributes := [("district", Value.vstr "Mitte"), ("neighborhood", Value.vstr "NH")]
     nearest_pois := none },
   { poi_id := "mall-1", name := Value.vstr "A", layer := "malls"
     district_id := Value.vstr "d1", district := Value.vstr "Mitte"
     neighborhood_id := Value.vstr "n1", neighborhood := Value.vstr "NH"
     latitude := Value.vnum 1, longitude := Value.vnum 1
     geometry := some (1, 1)
     attributes := [("district", Value.vstr "Mitte"), ("neighborhood", Value.vstr "NH")]
     nearest_pois := none }]

/-- C10 witness: c10_poi_ids_collision_free applied at concrete tables. -/
theorem c10_poi_ids_collision_free_witness :
    ("banks" : String) ∈ allow_list ∧ ("malls" : String) ∈ allow_list ∧
    ("banks" : String) ≠ "malls" ∧
    mkPoiId "banks" "1" ≠ mkPoiId "malls" "1" ∧
    (["banks", "malls"] : List String).Nodup ∧
    (∀ n ∈ (["banks", "malls"] : List String), n ∈ allow_list) ∧
    (∀ t ∈ c10src, ((t.rows).map (fun r => valueText (getVal r "id"))).Nodup) ∧
    all_pois c10src ["banks", "malls"] = Except.ok c10pois ∧
    insertAll [] (pois_with_nearest c10pois) = Except.ok (pois_with_nearest c10pois) :=
  ⟨by decide, by decide, by decide,
   c10_poi_ids_collision_free.2.1 "banks" (by decide) "malls" (by decide) (by decide) "1" "1",
   by decide, by decide, by decide, rfl,
   c10_poi_ids_collision_free.2.2 c10src ["banks", "malls"] c10pois (by decide) (by decide)
     (by decide) rfl⟩
